import Mathlib

/-!
Shallow embedding of the catalog-export / visibility pipeline of
`core/services/ExportCatalogoService.py` and
`core/services/ConsultaVisibilidadService.py`.

JSON dictionaries returned by the marketplace API are modelled as Lean
structures whose fields are `Option`-typed when the Python code reads them
with `.get` (a missing key, or a key bound to `null`, is `none`).  Numeric
JSON values are modelled as `Int` (prices as `Rat`); only their presence,
sign and zero-ness are consumed by the properties below.  Python string
methods (`isupper`, `strip`, `lower`) are modelled over ASCII characters.
-/

/-- Constant `REINTENTOS_MAXIMOS` of the service (maximum retry attempts). -/
def REINTENTOS_MAXIMOS : Nat := 3

/-- Constant `ESPERA_ENTRE_REINTENTOS` (seconds; multiplied by the attempt number). -/
def ESPERA_ENTRE_REINTENTOS : Nat := 2

/-- Constant `TAMANIO_PAGINA` (discovery page size). -/
def TAMANIO_PAGINA : Nat := 200

/-- Constant `COLUMNAS_EXPORT`: the 52 official export columns plus the extras. -/
def COLUMNAS_EXPORT : List String := [
  "EAN", "ACTIVO", "FOTO", "CATALOGADO",
  "_IDSKU", "_NombreSku", "_ActivarSKUSiEsPosible", "_SkuActivo", "_EANSKU",
  "_Altura", "_AlturaReal", "_Anchura", "_AnchuraReal",
  "_Longitud", "_LongitudReal", "_Peso", "_PesoReal",
  "_UnidadMedida", "_MultiplicadorUnidad", "_CodigoReferenciaSKU",
  "_ValorFidelidad", "_FechaEstimadaLlegada", "_CodigoFabricante",
  "_IDProducto", "_NombreProducto", "_DescripcionCortaProducto",
  "_ProductoActivo", "_CodigoReferenciaProducto", "_MostrarEnSitio",
  "_LinkTexto", "_DescripcionProducto", "_FechaLanzamientoProducto",
  "_PalabrasClave", "_TituloSitio", "_DescripcionMetaTag",
  "_IDProveedor", "_MostrarSinStock", "_Kit",
  "_IDDepartamento", "_NombreDepartamento", "_IDCategoria", "_NombreCategoria",
  "_IDMarca", "_Marca", "_PesoVolumetrico", "_CondicionComercial",
  "_Tiendas", "_Accesorios", "_Similares", "_Sugerencias",
  "_ShowTogether", "_Adjunto",
  "Motivo", "Precio", "Stock"]

/-- Python `d.get(clave, '')` on a string-valued key. -/
def pyStr (o : Option String) : String := o.getD ""

/-- Python `a or b` on strings (the empty string is falsy). -/
def oTexto (a b : String) : String := if a = "" then b else a

/-- Python `a or b` on optional integers (`None` and `0` are falsy). -/
def oEntero (a b : Option Int) : Option Int :=
  match a with
  | some x => if x = 0 then b else some x
  | none => b

/-- Python `str(d.get(clave, '') or '')` on an integer-valued key:
a missing key or a zero value renders as the empty string. -/
def strOEntero (o : Option Int) : String :=
  match o with
  | some n => if n = 0 then "" else toString n
  | none => ""

/-- Helper `_si_no` of the source, restricted to the boolean/None inputs
the modelled JSON fields produce. -/
def si_no (valor : Option Bool) : String :=
  match valor with
  | none => ""
  | some true => "SI"
  | some false => "NO"

/-- Helper `_num` of the source: `None` renders empty, otherwise `str(valor)`. -/
def num (o : Option Int) : String :=
  match o with
  | none => ""
  | some n => toString n

/-- Python `s.isupper()` over ASCII: some cased character exists and every
cased character is upper case. -/
def esMayusculas (s : String) : Bool :=
  s.toList.any (fun c => c.isAlpha) && s.toList.all (fun c => !c.isAlpha || c.isUpper)

/-- ASCII whitespace, as removed by Python `str.strip()`. -/
def esEspacio (c : Char) : Bool := c = ' ' || c = '\t' || c = '\n' || c = '\r'

/-- Python `s.strip()` over ASCII whitespace. -/
def recortar (s : String) : String :=
  ⟨((s.data.dropWhile esEspacio).reverse.dropWhile esEspacio).reverse⟩

/-- Python `s.lower()` over ASCII. -/
def aMinusculas (s : String) : String := ⟨s.data.map Char.toLower⟩

/-- Membership of `str(cat_name).strip().lower()` in the fixed disallowed
category-name set of `_calcular_calidad` / `_calcular_activo`. -/
def esCategoriaInvalida (nombre : String) : Bool :=
  ["deshabilitados", "categoria default", "categoría default"].contains
    (aMinusculas (recortar nombre))

/-- Model of the `Dimension` sub-dictionary of a SKU detail response. -/
structure Dimension where
  height : Option Int := none
  realHeight : Option Int := none
  width : Option Int := none
  realWidth : Option Int := none
  length : Option Int := none
  realLength : Option Int := none
  weight : Option Int := none
  realWeight : Option Int := none
  cubicweight : Option Int := none
  CubicWeight : Option Int := none
deriving DecidableEq, Repr

/-- Model of a SKU detail response (`stockkeepingunitbyid`), restricted to
the keys the service reads.  `AlternateIdsEan` models `AlternateIds.Ean`. -/
structure DatosSku where
  ProductId : Option Int := none
  AlternateIdsEan : Option String := none
  Ean : Option String := none
  CategoryId : Option Int := none
  BrandId : Option Int := none
  BrandName : Option String := none
  NameComplete : Option String := none
  SkuName : Option String := none
  ActivateIfPossible : Option Bool := none
  IsActive : Option Bool := none
  Height : Option Int := none
  RealHeight : Option Int := none
  Width : Option Int := none
  RealWidth : Option Int := none
  Length : Option Int := none
  RealLength : Option Int := none
  Weight : Option Int := none
  RealWeight : Option Int := none
  Dimension : Option Dimension := none
  MeasurementUnit : Option String := none
  UnitMultiplier : Option Int := none
  RefId : Option String := none
  RewardValue : Option Int := none
  EstimatedDateArrival : Option String := none
  ManufacturerCode : Option String := none
  ProductName : Option String := none
  IsProductActive : Option Bool := none
  ProductRefId : Option String := none
  IsKit : Option Bool := none
  CommercialConditionId : Option Int := none
  SalesChannels : List Int := []
  Images : List String := []
  ProductCategories : List String := []
deriving DecidableEq, Repr

/-- Model of a product response (`/api/catalog/pvt/product/`), restricted to
the keys the service reads. -/
structure DatosProd where
  CategoryId : Option Int := none
  DepartmentId : Option Int := none
  Description : Option String := none
  ShortDescription : Option String := none
  RefId : Option String := none
  IsVisible : Option Bool := none
  LinkId : Option String := none
  ReleaseDate : Option String := none
  KeyWords : Option String := none
  Title : Option String := none
  MetaTagDescription : Option String := none
  SupplierId : Option Int := none
  ShowWithoutStock : Option Bool := none
deriving DecidableEq, Repr

/-- Model of a category or brand dictionary (only `Name` and `Id` are read). -/
structure DatosCategoria where
  Name : Option String := none
  Id : Option String := none
deriving DecidableEq, Repr

/-- Method `_calcular_calidad` of `ExportCatalogoService`. -/
def calcular_calidad (datos_sku : DatosSku) (descripcion : String) : Bool :=
  let product_name := pyStr datos_sku.ProductName
  let tiene_foto := !datos_sku.Images.isEmpty
  let nombre_ok := if product_name ≠ "" then !esMayusculas product_name else false
  let foto_ok := tiene_foto
  let descripcion_ok := if descripcion ≠ "" then !esMayusculas descripcion else true
  let categoria_ok := !datos_sku.ProductCategories.any esCategoriaInvalida
  nombre_ok && foto_ok && descripcion_ok && categoria_ok

/-- Method `_calcular_activo` of `ExportCatalogoService`, exposing the
accumulated `motivos` list before the final `', '.join`. -/
def calcular_activo_motivos (datos_sku : DatosSku) (datos_prod : Option DatosProd)
    (foto calidad_ok : Bool) (sales_channels_filtro : List Int)
    (precio : Option Rat) (stock : Option Int) (incluir_precio_stock : Bool) :
    Bool × List String :=
  let motivos : List String := if !foto then ["Sin imagenes"] else []
  let motivos :=
    if !calidad_ok then
      let product_name := pyStr datos_sku.ProductName
      let motivos := motivos ++
        (if product_name ≠ "" && esMayusculas product_name then
          ["Nombre todo mayusculas"] else [])
      let motivos := motivos ++
        (match datos_sku.ProductCategories.find? esCategoriaInvalida with
         | some cat_name => ["Categoria: " ++ cat_name]
         | none => [])
      if motivos = [] then ["No catalogado (calidad)"] else motivos
    else motivos
  let motivos := motivos ++
    (if !(datos_sku.IsActive.getD false) then ["SKU inactivo"] else [])
  let motivos := motivos ++
    (if !(datos_sku.IsProductActive.getD false) then ["Producto inactivo"] else [])
  let motivos := motivos ++
    (match datos_prod with
     | some p => if !(p.IsVisible.getD false) then ["No visible en sitio"] else []
     | none => ["Sin datos de producto"])
  let motivos := motivos ++
    (match datos_prod with
     | some p => if !(p.ShowWithoutStock.getD false) then ["ShowWithoutStock desactivado"] else []
     | none => [])
  let sc_ids := datos_sku.SalesChannels
  let motivos := motivos ++
    (if !(sales_channels_filtro.any (fun sc => sc_ids.contains sc)) then
      ["Sin ninguno de SC [" ++
        String.intercalate ", " (sales_channels_filtro.map toString) ++ "]"]
     else [])
  let motivos := motivos ++
    (if incluir_precio_stock then
      (if precio = none then ["Sin precio"] else []) ++
      (match stock with
       | some s => if s ≤ 0 then ["Sin stock"] else []
       | none => [])
     else [])
  (motivos.isEmpty, motivos)

/-- Method `_calcular_activo` of the source as it returns: the boolean and
the reasons joined with `', '`. -/
def calcular_activo (datos_sku : DatosSku) (datos_prod : Option DatosProd)
    (foto calidad_ok : Bool) (sales_channels_filtro : List Int)
    (precio : Option Rat) (stock : Option Int) (incluir_precio_stock : Bool) :
    Bool × String :=
  let r := calcular_activo_motivos datos_sku datos_prod foto calidad_ok
    sales_channels_filtro precio stock incluir_precio_stock
  (r.1, String.intercalate ", " r.2)

/-- Cell value of an output row: Python strings, `None`, and raw numbers
(`Precio` keeps the float, `Stock` keeps the integer sum). -/
inductive Valor where
  | texto (s : String)
  | nulo
  | numero (q : Rat)
  | entero (n : Int)
deriving DecidableEq, Repr

/-- An output row: the column/value pairs of the Python dict, in the
insertion order of the source literal (equal to `COLUMNAS_EXPORT`). -/
abbrev Fila := List (String × Valor)

/-- Method `_resultado_error`: a dict with every export column empty, then
updated with the error sentinels, the identifier, the reason and null
price/stock. -/
def resultado_error (sku_id : Int) (motivo : String) : Fila :=
  COLUMNAS_EXPORT.map (fun col =>
    if col = "ACTIVO" ∨ col = "FOTO" ∨ col = "CATALOGADO" then (col, Valor.texto "ERROR")
    else if col = "_IDSKU" then (col, Valor.texto (toString sku_id))
    else if col = "Motivo" then (col, Valor.texto motivo)
    else if col = "Precio" ∨ col = "Stock" then (col, Valor.nulo)
    else (col, Valor.texto ""))

/-- Python `self._cache_categorias.get(clave, {}).get('Name', '')`. -/
def nombreDeCache (cache : List (String × DatosCategoria)) (clave : String) : String :=
  match cache.lookup clave with
  | some d => pyStr d.Name
  | none => ""

/-- Python `(datos_prod or {}).get(clave, '') or ''` on a string field. -/
def prodStr (datos_prod : Option DatosProd) (f : DatosProd → Option String) : String :=
  match datos_prod with
  | some p => pyStr (f p)
  | none => ""

/-- Python `str((datos_prod or {}).get(clave, '') or '')` on an integer field. -/
def prodEnteroStr (datos_prod : Option DatosProd) (f : DatosProd → Option Int) : String :=
  match datos_prod with
  | some p => strOEntero (f p)
  | none => ""

/-- The full-record branch of `_construir_resultados`: the 52+3 column row
built for one SKU whose detail fetch succeeded. -/
def construirFila (sku_id : Int) (datos_sku : DatosSku)
    (cacheProductos : List (String × Option DatosProd))
    (cacheCategorias cacheMarcas : List (String × DatosCategoria))
    (precio : Option Rat) (stock : Option Int)
    (sales_channels_filtro : List Int) (incluir_precio_stock : Bool) : Fila :=
  let product_id := strOEntero datos_sku.ProductId
  let ean := oTexto (pyStr datos_sku.AlternateIdsEan) (oTexto (pyStr datos_sku.Ean) "")
  let category_id0 := strOEntero datos_sku.CategoryId
  let brand_id := strOEntero datos_sku.BrandId
  let datos_prod := if product_id ≠ "" then (cacheProductos.lookup product_id).join else none
  let par_categoria :=
    if category_id0 ≠ "" then
      (category_id0, nombreDeCache cacheCategorias category_id0)
    else
      match datos_prod with
      | some p =>
        match p.CategoryId with
        | some c =>
          if c ≠ 0 then (toString c, nombreDeCache cacheCategorias (toString c))
          else (category_id0, "")
        | none => (category_id0, "")
      | none => (category_id0, "")
  let category_id := par_categoria.1
  let nombre_categoria := par_categoria.2
  let department_id := prodEnteroStr datos_prod DatosProd.DepartmentId
  let nombre_departamento :=
    if department_id ≠ "" then nombreDeCache cacheCategorias department_id else ""
  let nombre_marca0 := pyStr datos_sku.BrandName
  let nombre_marca :=
    if nombre_marca0 = "" ∧ brand_id ≠ "" then nombreDeCache cacheMarcas brand_id
    else nombre_marca0
  let descripcion := prodStr datos_prod DatosProd.Description
  let foto := !datos_sku.Images.isEmpty
  let calidad_ok := calcular_calidad datos_sku descripcion
  let par_activo := calcular_activo datos_sku datos_prod foto calidad_ok
    sales_channels_filtro precio stock incluir_precio_stock
  let activo := par_activo.1
  let motivo := par_activo.2
  let catalogado := activo && foto && (recortar ean ≠ "")
  let sc_str :=
    if datos_sku.SalesChannels.isEmpty then ""
    else String.intercalate ", " (datos_sku.SalesChannels.map toString)
  let dimension := match datos_sku.Dimension with
    | some d => d
    | none => {}
  [("EAN", Valor.texto ean),
   ("ACTIVO", Valor.texto (if activo then "SI" else "NO")),
   ("FOTO", Valor.texto (if foto then "SI" else "NO")),
   ("CATALOGADO", Valor.texto (if catalogado then "SI" else "NO")),
   ("_IDSKU", Valor.texto (toString sku_id)),
   ("_NombreSku", Valor.texto (oTexto (pyStr datos_sku.NameComplete) (pyStr datos_sku.SkuName))),
   ("_ActivarSKUSiEsPosible", Valor.texto (si_no datos_sku.ActivateIfPossible)),
   ("_SkuActivo", Valor.texto (si_no datos_sku.IsActive)),
   ("_EANSKU", Valor.texto ean),
   ("_Altura", Valor.texto (num (oEntero datos_sku.Height dimension.height))),
   ("_AlturaReal", Valor.texto (num (oEntero datos_sku.RealHeight dimension.realHeight))),
   ("_Anchura", Valor.texto (num (oEntero datos_sku.Width dimension.width))),
   ("_AnchuraReal", Valor.texto (num (oEntero datos_sku.RealWidth dimension.realWidth))),
   ("_Longitud", Valor.texto (num (oEntero datos_sku.Length dimension.length))),
   ("_LongitudReal", Valor.texto (num (oEntero datos_sku.RealLength dimension.realLength))),
   ("_Peso", Valor.texto (num (oEntero datos_sku.Weight dimension.weight))),
   ("_PesoReal", Valor.texto (num (oEntero datos_sku.RealWeight dimension.realWeight))),
   ("_UnidadMedida", Valor.texto (pyStr datos_sku.MeasurementUnit)),
   ("_MultiplicadorUnidad", Valor.texto (num datos_sku.UnitMultiplier)),
   ("_CodigoReferenciaSKU", Valor.texto (pyStr datos_sku.RefId)),
   ("_ValorFidelidad", Valor.texto (num datos_sku.RewardValue)),
   ("_FechaEstimadaLlegada", Valor.texto (pyStr datos_sku.EstimatedDateArrival)),
   ("_CodigoFabricante", Valor.texto (pyStr datos_sku.ManufacturerCode)),
   ("_IDProducto", Valor.texto product_id),
   ("_NombreProducto", Valor.texto (pyStr datos_sku.ProductName)),
   ("_DescripcionCortaProducto", Valor.texto (prodStr datos_prod DatosProd.ShortDescription)),
   ("_ProductoActivo", Valor.texto (si_no datos_sku.IsProductActive)),
   ("_CodigoReferenciaProducto",
     Valor.texto (oTexto (pyStr datos_sku.ProductRefId) (prodStr datos_prod DatosProd.RefId))),
   ("_MostrarEnSitio", Valor.texto (si_no (datos_prod.bind DatosProd.IsVisible))),
   ("_LinkTexto", Valor.texto (prodStr datos_prod DatosProd.LinkId)),
   ("_DescripcionProducto", Valor.texto descripcion),
   ("_FechaLanzamientoProducto", Valor.texto (prodStr datos_prod DatosProd.ReleaseDate)),
   ("_PalabrasClave", Valor.texto (prodStr datos_prod DatosProd.KeyWords)),
   ("_TituloSitio", Valor.texto (prodStr datos_prod DatosProd.Title)),
   ("_DescripcionMetaTag", Valor.texto (prodStr datos_prod DatosProd.MetaTagDescription)),
   ("_IDProveedor", Valor.texto (prodEnteroStr datos_prod DatosProd.SupplierId)),
   ("_MostrarSinStock", Valor.texto (si_no (datos_prod.bind DatosProd.ShowWithoutStock))),
   ("_Kit", Valor.texto (si_no datos_sku.IsKit)),
   ("_IDDepartamento", Valor.texto department_id),
   ("_NombreDepartamento", Valor.texto nombre_departamento),
   ("_IDCategoria", Valor.texto category_id),
   ("_NombreCategoria", Valor.texto nombre_categoria),
   ("_IDMarca", Valor.texto brand_id),
   ("_Marca", Valor.texto nombre_marca),
   ("_PesoVolumetrico", Valor.texto (num (oEntero dimension.cubicweight dimension.CubicWeight))),
   ("_CondicionComercial", Valor.texto (strOEntero datos_sku.CommercialConditionId)),
   ("_Tiendas", Valor.texto sc_str),
   ("_Accesorios", Valor.texto ""),
   ("_Similares", Valor.texto ""),
   ("_Sugerencias", Valor.texto ""),
   ("_ShowTogether", Valor.texto ""),
   ("_Adjunto", Valor.texto ""),
   ("Motivo", Valor.texto (if activo then "" else motivo)),
   ("Precio", match precio with | some q => Valor.numero q | none => Valor.nulo),
   ("Stock", match stock with | some n => Valor.entero n | none => Valor.nulo)]

/-- Per-identifier dispatch of `_construir_resultados`: a failed detail
fetch yields the error stub, a successful one the full row. -/
def filaDeSku (cacheProductos : List (String × Option DatosProd))
    (cacheCategorias cacheMarcas : List (String × DatosCategoria))
    (precios : Int → Option Rat) (stocks : Int → Option Int)
    (sales_channels_filtro : List Int) (incluir_precio_stock : Bool)
    (sku_id : Int) (datos_sku : Option DatosSku) : Fila :=
  match datos_sku with
  | none => resultado_error sku_id "Error al consultar catalogo"
  | some ds =>
    construirFila sku_id ds cacheProductos cacheCategorias cacheMarcas
      (precios sku_id) (stocks sku_id) sales_channels_filtro incluir_precio_stock

/-- Method `_construir_resultados`: one row per discovered identifier, in
discovery order.  The Python loop indexes `detalles_skus` positionally by
`enumerate(sku_ids)`; with lists of equal length this is the zip below. -/
def construir_resultados (sku_ids : List Int) (detalles_skus : List (Option DatosSku))
    (cacheProductos : List (String × Option DatosProd))
    (cacheCategorias cacheMarcas : List (String × DatosCategoria))
    (precios : Int → Option Rat) (stocks : Int → Option Int)
    (sales_channels_filtro : List Int) (incluir_precio_stock : Bool) :
    List Fila :=
  (sku_ids.zip detalles_skus).map (fun par =>
    filaDeSku cacheProductos cacheCategorias cacheMarcas precios stocks
      sales_channels_filtro incluir_precio_stock par.1 par.2)

/-- Fixed decision-engine input of the determinism property: no images,
own and parent active flags true, product present, visible on site,
`ShowWithoutStock` enabled, lower-case name, benign categories, sales
channel 1 in the default filter. -/
def skuSinImagenes : DatosSku :=
  { ProductId := some 10
    Ean := some "7791234567890"
    IsActive := some true
    IsProductActive := some true
    ProductName := some "Zapatilla urbana"
    SalesChannels := [1]
    Images := []
    ProductCategories := ["Calzado"] }

/-- Product reference paired with `skuSinImagenes` in the fixed input. -/
def prodVisible : DatosProd :=
  { IsVisible := some true
    ShowWithoutStock := some true
    Description := some "Zapatilla de lona" }

/-- Observable outcome of one HTTP attempt inside `_request_con_retry`: a
JSON body, an explicit 429, a 404, another error status (raised by
`raise_for_status` as `HTTPError`), or a raised non-HTTP exception
(connection error, timeout, JSON decode failure). -/
inductive Respuesta (α : Type) where
  | ok (cuerpo : α)
  | limiteTasa
  | noEncontrado
  | errorHttp
  | errorRed
deriving DecidableEq, Repr

/-- Outcome of `_request_con_retry`: the returned value, the sleeps
performed (seconds, in order) and the number of requests issued. -/
structure SalidaRetry (α : Type) where
  resultado : Option α
  esperas : List Nat
  intentos : Nat
deriving DecidableEq, Repr

/-- Loop body of `_request_con_retry` over `intento = 1..REINTENTOS_MAXIMOS`;
`restantes` is the number of loop iterations left. -/
def request_con_retry_buc {α : Type} (respuestas : Nat → Respuesta α) (silenciar_404 : Bool) :
    Nat → Nat → List Nat → Nat → SalidaRetry α
  | 0, _intento, esperas, intentos =>
    { resultado := none, esperas := esperas.reverse, intentos := intentos }
  | restantes + 1, intento, esperas, intentos =>
    match respuestas intento with
    | .limiteTasa =>
      request_con_retry_buc respuestas silenciar_404 restantes (intento + 1)
        (ESPERA_ENTRE_REINTENTOS * intento :: esperas) (intentos + 1)
    | .noEncontrado =>
      if silenciar_404 then
        { resultado := none, esperas := esperas.reverse, intentos := intentos + 1 }
      else if intento < REINTENTOS_MAXIMOS then
        request_con_retry_buc respuestas silenciar_404 restantes (intento + 1)
          (ESPERA_ENTRE_REINTENTOS * intento :: esperas) (intentos + 1)
      else { resultado := none, esperas := esperas.reverse, intentos := intentos + 1 }
    | .errorHttp =>
      if intento < REINTENTOS_MAXIMOS then
        request_con_retry_buc respuestas silenciar_404 restantes (intento + 1)
          (ESPERA_ENTRE_REINTENTOS * intento :: esperas) (intentos + 1)
      else { resultado := none, esperas := esperas.reverse, intentos := intentos + 1 }
    | .errorRed =>
      { resultado := none, esperas := esperas.reverse, intentos := intentos + 1 }
    | .ok cuerpo =>
      { resultado := some cuerpo, esperas := esperas.reverse, intentos := intentos + 1 }

/-- Method `_request_con_retry`, driven by the attempt-indexed outcomes. -/
def request_con_retry {α : Type} (respuestas : Nat → Respuesta α) (silenciar_404 : Bool) :
    SalidaRetry α :=
  request_con_retry_buc respuestas silenciar_404 REINTENTOS_MAXIMOS 1 [] 0

/-- Outcome of `_obtener_todos_los_sku_ids`: the collected identifiers, the
pages requested in order, and whether a page request failed (in which case
the source logs, sets the ERROR state and returns the empty list). -/
structure SalidaDescubrimiento where
  ids : List Int
  paginasPedidas : List Nat
  errorPagina : Bool
deriving DecidableEq, Repr

/-- The `while True` loop of `_obtener_todos_los_sku_ids`, with explicit
fuel; `none` means the fuel ran out before the source loop ended. -/
def obtener_sku_ids_buc (paginas : Nat → Option (List Int)) :
    Nat → Nat → List Int → List Nat → Option SalidaDescubrimiento
  | 0, _, _, _ => none
  | fuel + 1, page, acc, pedidas =>
    match paginas page with
    | none =>
      some { ids := [], paginasPedidas := (page :: pedidas).reverse, errorPagina := true }
    | some datos =>
      if datos.isEmpty then
        some { ids := acc, paginasPedidas := (page :: pedidas).reverse, errorPagina := false }
      else
        let acc2 := acc ++ datos
        if datos.length < TAMANIO_PAGINA then
          some { ids := acc2, paginasPedidas := (page :: pedidas).reverse, errorPagina := false }
        else
          obtener_sku_ids_buc paginas fuel (page + 1) acc2 (page :: pedidas)

/-- Method `_obtener_todos_los_sku_ids`: sequential pagination from page 1. -/
def obtener_todos_los_sku_ids (paginas : Nat → Option (List Int)) (fuel : Nat) :
    Option SalidaDescubrimiento :=
  obtener_sku_ids_buc paginas fuel 1 [] []

/-- Discovery response sequence with page sizes 200, 200, 47. -/
def paginas447 : Nat → Option (List Int) := fun page =>
  if page = 1 then some (List.replicate 200 0)
  else if page = 2 then some (List.replicate 200 0)
  else if page = 3 then some (List.replicate 47 0)
  else some []

/-- Discovery response sequence with page sizes 200, 200, 200, 0. -/
def paginas600 : Nat → Option (List Int) := fun page =>
  if page ≤ 3 then some (List.replicate 200 0) else some []

/-- One warehouse entry of the inventory response's `balance` list. -/
structure Almacen where
  hasUnlimitedQuantity : Option Bool := none
  totalQuantity : Option Int := none
  reservedQuantity : Option Int := none
deriving DecidableEq, Repr

/-- Inventory response body (only `balance` is read). -/
structure DatosStock where
  balance : Option (List Almacen) := none
deriving DecidableEq, Repr

/-- Per-warehouse summand of `_obtener_stock`:
`max(totalQuantity - reservedQuantity, 0)`. -/
def cantidadAlmacen (a : Almacen) : Int :=
  max (a.totalQuantity.getD 0 - a.reservedQuantity.getD 0) 0

/-- The aggregated warehouse sum shared by `_obtener_stock` and the stock
stage of `_consultar_visibilidad_sku`. -/
def sumaStock (balance : List Almacen) : Int :=
  (balance.map cantidadAlmacen).sum

/-- Method `_obtener_stock` of `ExportCatalogoService` as a function of the
fetched response; `none` models a failed fetch, a silenced 404 or an empty
falsy body, all of which return `None` in the source. -/
def obtener_stock (respuesta : Option DatosStock) : Option Int :=
  match respuesta with
  | some datos => some (sumaStock (datos.balance.getD []))
  | none => none

/-- The `tiene_stock` test of `_consultar_visibilidad_sku`: some warehouse
has the unlimited sentinel or strictly more total than reserved quantity. -/
def tiene_stock (balance : List Almacen) : Bool :=
  balance.any (fun a =>
    a.hasUnlimitedQuantity.getD false ||
      a.totalQuantity.getD 0 > a.reservedQuantity.getD 0)

/-- Catalog response fields read by the visibility check. -/
structure DatosCatalogoVis where
  Images : List String := []
  IsActive : Option Bool := none
  IsProductActive : Option Bool := none
deriving DecidableEq, Repr

/-- Fetch outcomes consumed by one visibility check.  An outer `none`
models a request that raised (connection failure or error status).  The
price body is reduced to its `basePrice` field, itself optional because
`datos_precio.get("basePrice", 0)` defaults a missing key to `0`. -/
structure RespuestasVisibilidad where
  catalogo : Option DatosCatalogoVis
  precio : Option (Option Rat)
  stock : Option (List Almacen)
deriving DecidableEq, Repr

/-- Returned row of `_consultar_visibilidad_sku` together with the number
of `ConsultaVisibilidad` audit records the call persists. -/
structure ResultadoVisibilidad where
  sku_id : String
  visible : Bool
  motivo : String
  stock : Option Int
  precio : Option Rat
  tiene_imagenes : Option Bool
  registrosAuditoria : Nat
deriving DecidableEq, Repr

/-- Method `_consultar_visibilidad_sku` of `ConsultaVisibilidadService`:
three short-circuiting stages (catalog, price, stock).  A failed catalog
request returns early, before the audit record is created, so that path
persists zero records. -/
def consultar_visibilidad_sku (skuId : String) (r : RespuestasVisibilidad) :
    ResultadoVisibilidad :=
  match r.catalogo with
  | none =>
    { sku_id := skuId, visible := false, motivo := "Error al consultar catalogo",
      stock := none, precio := none, tiene_imagenes := none, registrosAuditoria := 0 }
  | some datos_catalogo =>
    let lista_imagenes := datos_catalogo.Images
    let sku_activo := datos_catalogo.IsActive.getD false
    let producto_activo := datos_catalogo.IsProductActive.getD false
    let tiene_imagenes := !lista_imagenes.isEmpty
    let etapa1 : Bool × String :=
      if lista_imagenes.isEmpty then (false, "Sin imagenes")
      else if !sku_activo then (false, "SKU no activo")
      else if !producto_activo then (false, "Producto no activo")
      else (true, "")
    let etapa2 : Bool × String × Option Rat :=
      if etapa1.1 then
        match r.precio with
        | none => (false, "Sin precio (error al consultar)", none)
        | some basePrice =>
          let precio := basePrice.getD 0
          if precio = 0 then (false, "Sin precio", some precio)
          else (true, etapa1.2, some precio)
      else (etapa1.1, etapa1.2, none)
    let etapa3 : Bool × String × Option Int :=
      if etapa2.1 then
        match r.stock with
        | none => (false, "Sin stock (error al consultar)", none)
        | some lista_almacenes =>
          if !tiene_stock lista_almacenes then
            (false, "Sin stock", some (sumaStock lista_almacenes))
          else (etapa2.1, etapa2.2.1, some (sumaStock lista_almacenes))
      else (etapa2.1, etapa2.2.1, none)
    { sku_id := skuId, visible := etapa3.1, motivo := etapa3.2.1,
      stock := etapa3.2.2, precio := etapa2.2.2,
      tiene_imagenes := some tiene_imagenes, registrosAuditoria := 1 }

/-- A warehouse reporting the unlimited-quantity sentinel with zero
total and reserved quantities. -/
def almacenIlimitado : Almacen :=
  { hasUnlimitedQuantity := some true, totalQuantity := some 0, reservedQuantity := some 0 }

/-- The fixed decision-engine input with one image (otherwise identical to
`skuSinImagenes`), used to isolate the stock condition. -/
def skuConFoto : DatosSku := { skuSinImagenes with Images := ["imagen1"] }

/-- A catalog response that passes the visibility check's first stage. -/
def catalogoOk : DatosCatalogoVis :=
  { Images := ["imagen1"], IsActive := some true, IsProductActive := some true }

/-- State of the product memo cache `_cache_productos`, together with the
log of underlying fetches issued (to count fetch-call volume). -/
structure CacheProductos where
  entradas : List (String × Option DatosProd)
  llamadas : List String
deriving DecidableEq, Repr

/-- Method `_obtener_producto`: return the cached entry if the key is
present (membership test, not truthiness), otherwise fetch and store the
response — including `None`, so "fetched but absent" is a present entry
with value `none`, distinct from a missing key. -/
def obtener_producto (fetch : String → Option DatosProd) (c : CacheProductos)
    (product_id : String) : Option DatosProd × CacheProductos :=
  match c.entradas.lookup product_id with
  | some datos => (datos, c)
  | none =>
    let datos := fetch product_id
    (datos, { entradas := (product_id, datos) :: c.entradas,
              llamadas := product_id :: c.llamadas })

/-- A contention-free sequence of `_obtener_producto` calls on one run's
initially empty cache. -/
def secuenciaProductos (fetch : String → Option DatosProd) (claves : List String) :
    CacheProductos :=
  claves.foldl (fun c k => (obtener_producto fetch c k).2)
    { entradas := [], llamadas := [] }

/-- Invariant of the product cache: each key was fetched at most once,
exactly the fetched keys are cached, and every cached value is the fetch
result for its key. -/
def invCacheProductos (fetch : String → Option DatosProd) (c : CacheProductos) : Prop :=
  c.llamadas.Nodup ∧
  (∀ k, k ∈ c.llamadas ↔ (c.entradas.lookup k).isSome) ∧
  (∀ k v, c.entradas.lookup k = some v → v = fetch k)

/-- The negative-cache stub `{'Name': '', 'Id': id}` stored by
`_obtener_categoria` / `_obtener_marca` when the fetch is falsy. -/
def stubCategoria (id : String) : DatosCategoria :=
  { Name := some "", Id := some id }

/-- Value `_obtener_categoria` caches for a key: the fetched dict when the
response is truthy, else the stub (a failed fetch or a falsy body is
modelled as `none`). -/
def valorCacheCategoria (fetch : String → Option DatosCategoria) (id : String) :
    DatosCategoria :=
  match fetch id with
  | some d => d
  | none => stubCategoria id

/-- State of the category (or brand) memo cache, together with the log of
underlying fetches issued. -/
structure CacheCategorias where
  entradas : List (String × DatosCategoria)
  llamadas : List String
deriving DecidableEq, Repr

/-- Method `_obtener_categoria`: cached entry if present, otherwise fetch
and store the response or, when it is falsy, the explicit negative stub. -/
def obtener_categoria (fetch : String → Option DatosCategoria) (c : CacheCategorias)
    (category_id : String) : DatosCategoria × CacheCategorias :=
  match c.entradas.lookup category_id with
  | some datos => (datos, c)
  | none =>
    let resultado := valorCacheCategoria fetch category_id
    (resultado, { entradas := (category_id, resultado) :: c.entradas,
                  llamadas := category_id :: c.llamadas })

/-- Method `_obtener_marca`: identical body to `_obtener_categoria`, acting
on the brand cache `_cache_marcas`. -/
def obtener_marca (fetch : String → Option DatosCategoria) (c : CacheCategorias)
    (brand_id : String) : DatosCategoria × CacheCategorias :=
  match c.entradas.lookup brand_id with
  | some datos => (datos, c)
  | none =>
    let resultado := valorCacheCategoria fetch brand_id
    (resultado, { entradas := (brand_id, resultado) :: c.entradas,
                  llamadas := brand_id :: c.llamadas })

/-- A contention-free sequence of `_obtener_categoria` calls on one run's
initially empty cache. -/
def secuenciaCategorias (fetch : String → Option DatosCategoria) (claves : List String) :
    CacheCategorias :=
  claves.foldl (fun c k => (obtener_categoria fetch c k).2)
    { entradas := [], llamadas := [] }

/-- Invariant of the category cache: each key fetched at most once, exactly
the fetched keys cached, cached values equal the cache-value function. -/
def invCacheCategorias (fetch : String → Option DatosCategoria) (c : CacheCategorias) : Prop :=
  c.llamadas.Nodup ∧
  (∀ k, k ∈ c.llamadas ↔ (c.entradas.lookup k).isSome) ∧
  (∀ k v, c.entradas.lookup k = some v → v = valorCacheCategoria fetch k)

/-- Pricing response body (only `basePrice` is read). -/
structure DatosPrecio where
  basePrice : Option Rat := none
deriving DecidableEq, Repr

/-- Method `_obtener_precio` of `ExportCatalogoService` as a function of
the fetched response (`none` models a failed fetch, a silenced 404 or an
empty falsy body). -/
def obtener_precio (respuesta : Option DatosPrecio) : Option Rat :=
  match respuesta with
  | some datos => datos.basePrice
  | none => none

/-- First-occurrence deduplication, modelling the Python `set` used to
collect unique reference ids (set iteration order is unspecified upstream;
the resulting caches agree as maps for any order). -/
def insertarUnico (l : List String) (x : String) : List String :=
  if l.contains x then l else l ++ [x]

/-- Deduplicate preserving first occurrences. -/
def idsUnicos (xs : List String) : List String := xs.foldl insertarUnico []

/-- The `ids_productos` extraction of `ejecutar`: truthy `ProductId` of
every fetched detail, stringified, deduplicated. -/
def extraerIdsProductos (detalles : List (Option DatosSku)) : List String :=
  idsUnicos (detalles.filterMap (fun ds => ds.bind (fun d =>
    match d.ProductId with
    | some p => if p ≠ 0 then some (toString p) else none
    | none => none)))

/-- The `ids_categorias` extraction of `ejecutar`. -/
def extraerIdsCategorias (detalles : List (Option DatosSku)) : List String :=
  idsUnicos (detalles.filterMap (fun ds => ds.bind (fun d =>
    match d.CategoryId with
    | some c => if c ≠ 0 then some (toString c) else none
    | none => none)))

/-- The `ids_marcas` extraction of `ejecutar`: truthy `BrandId` of details
whose `BrandName` is falsy. -/
def extraerIdsMarcas (detalles : List (Option DatosSku)) : List String :=
  idsUnicos (detalles.filterMap (fun ds => ds.bind (fun d =>
    match d.BrandId with
    | some b => if b ≠ 0 ∧ pyStr d.BrandName = "" then some (toString b) else none
    | none => none)))

/-- The `ids_departamentos` extraction of `ejecutar`: truthy `DepartmentId`
of every truthy cached product. -/
def extraerIdsDepartamentos (ids_productos : List String) (cache : CacheProductos) :
    List String :=
  idsUnicos (ids_productos.filterMap (fun pid =>
    match cache.entradas.lookup pid with
    | some (some prod) =>
      match prod.DepartmentId with
      | some d => if d ≠ 0 then some (toString d) else none
      | _ => none
    | _ => none))

/-- Task states written by the services (`TareaCatalogacion.Estado`). -/
inductive Estado where
  | procesando
  | completado
  | error
deriving DecidableEq, Repr

/-- The upstream API responses one run observes, per endpoint. -/
structure Oraculos where
  paginas : Nat → Option (List Int)
  detalleSku : Int → Option DatosSku
  fetchProducto : String → Option DatosProd
  fetchCategoria : String → Option DatosCategoria
  fetchMarca : String → Option DatosCategoria
  precioSku : Int → Option DatosPrecio
  stockSku : Int → Option DatosStock

/-- Observable outcome of one `ejecutar` run: the task's final state, the
ordered trace of state updates, and the assembled rows (`none` when no
output file is generated). -/
structure ResultadoEjecucion where
  estadoFinal : Estado
  historialEstados : List Estado
  filas : Option (List Fila)
deriving DecidableEq, Repr

/-- Method `ejecutar` of `ExportCatalogoService` at the state/output level
(logging and Excel serialization abstracted away; the per-item fetch phases
are contention-free, so each phase is its oracle applied pointwise and the
lookup phases fold the memo caches).  `none` means the discovery loop ran
out of fuel. -/
def ejecutar (o : Oraculos) (sales_channels_filtro : Option (List Int))
    (incluir_precio_stock : Bool) (fuel : Nat) : Option ResultadoEjecucion :=
  match obtener_todos_los_sku_ids o.paginas fuel with
  | none => none
  | some descubrimiento =>
    let historial0 := [Estado.procesando] ++
      (if descubrimiento.errorPagina then [Estado.error] else [])
    if descubrimiento.ids.isEmpty then
      some { estadoFinal := Estado.completado,
             historialEstados := historial0 ++ [Estado.completado],
             filas := none }
    else
      let sku_ids := descubrimiento.ids
      let filtro := sales_channels_filtro.getD [1, 3]
      let detalles_skus := sku_ids.map o.detalleSku
      let ids_productos := extraerIdsProductos detalles_skus
      let ids_categorias := extraerIdsCategorias detalles_skus
      let ids_marcas := extraerIdsMarcas detalles_skus
      let cacheProductos := secuenciaProductos o.fetchProducto ids_productos
      let cacheCategorias0 := secuenciaCategorias o.fetchCategoria ids_categorias
      let cacheMarcas := ids_marcas.foldl
        (fun c k => (obtener_marca o.fetchMarca c k).2) { entradas := [], llamadas := [] }
      let ids_departamentos := extraerIdsDepartamentos ids_productos cacheProductos
      let departamentos_nuevos := ids_departamentos.filter
        (fun d => !(cacheCategorias0.entradas.lookup d).isSome)
      let cacheCategorias := departamentos_nuevos.foldl
        (fun c k => (obtener_categoria o.fetchCategoria c k).2) cacheCategorias0
      let precios : Int → Option Rat := fun sid =>
        if incluir_precio_stock then obtener_precio (o.precioSku sid) else none
      let stocks : Int → Option Int := fun sid =>
        if incluir_precio_stock then obtener_stock (o.stockSku sid) else none
      let filas := construir_resultados sku_ids detalles_skus cacheProductos.entradas
        cacheCategorias.entradas cacheMarcas.entradas precios stocks filtro
        incluir_precio_stock
      some { estadoFinal := Estado.completado,
             historialEstados := historial0 ++ [Estado.completado],
             filas := some filas }

/-- Oracle where the very first discovery page request fails. -/
def oraculosFalloPagina : Oraculos :=
  { paginas := fun _ => none,
    detalleSku := fun _ => none,
    fetchProducto := fun _ => none,
    fetchCategoria := fun _ => none,
    fetchMarca := fun _ => none,
    precioSku := fun _ => none,
    stockSku := fun _ => none }

/-- C3: for the fixed decision-engine input (no images, active flags true,
product visible, channels intersect, price present, stock equal to zero,
enrichment requested) the engine returns inactive with reasons exactly
`Sin imagenes` followed by `Sin stock`. -/
theorem c3_decision_determinista :
    skuSinImagenes.Images = [] ∧
    skuSinImagenes.IsActive = some true ∧
    skuSinImagenes.IsProductActive = some true ∧
    prodVisible.IsVisible = some true ∧
    (skuSinImagenes.SalesChannels.contains 1 ∧ [1, 3].contains 1) ∧
    calcular_activo_motivos skuSinImagenes (some prodVisible) false
      (calcular_calidad skuSinImagenes (pyStr prodVisible.Description))
      [1, 3] (some 100) (some 0) true
      = (false, ["Sin imagenes", "Sin stock"]) := by
  decide

/-- Indexing a zip of two lists at a position both lists cover. -/
theorem zip_getElem_some {α β : Type} (l : List α) (m : List β) (i : Nat) (a : α) (b : β)
    (h1 : l[i]? = some a) (h2 : m[i]? = some b) : (l.zip m)[i]? = some (a, b) := by
  induction l generalizing m i with
  | nil => simp at h1
  | cons x xs ih =>
    cases m with
    | nil => simp at h2
    | cons y ys =>
      cases i with
      | zero => simp_all
      | succ n => simpa using ih ys n (by simpa using h1) (by simpa using h2)

/-- The row built by `_construir_resultados` at a covered index is the
per-identifier dispatch applied to that identifier and its fetched detail. -/
theorem construir_resultados_getElem (sku_ids : List Int) (detalles : List (Option DatosSku))
    (cp : List (String × Option DatosProd)) (cc cm : List (String × DatosCategoria))
    (precios : Int → Option Rat) (stocks : Int → Option Int)
    (filtro : List Int) (incluir : Bool) (i : Nat) (sid : Int) (det : Option DatosSku)
    (h1 : sku_ids[i]? = some sid) (h2 : detalles[i]? = some det) :
    (construir_resultados sku_ids detalles cp cc cm precios stocks filtro incluir)[i]? =
      some (filaDeSku cp cc cm precios stocks filtro incluir sid det) := by
  unfold construir_resultados
  rw [List.getElem?_map, zip_getElem_some sku_ids detalles i sid det h1 h2]
  rfl

/-- The `_IDSKU` cell of a full row is the stringified identifier. -/
theorem lookup_idsku_construirFila (sku_id : Int) (ds : DatosSku)
    (cp : List (String × Option DatosProd)) (cc cm : List (String × DatosCategoria))
    (precio : Option Rat) (stock : Option Int) (filtro : List Int) (incluir : Bool) :
    (construirFila sku_id ds cp cc cm precio stock filtro incluir).lookup "_IDSKU"
      = some (Valor.texto (toString sku_id)) := rfl

/-- The `_IDSKU` cell of the error stub is the stringified identifier. -/
theorem lookup_idsku_resultado_error (sku_id : Int) (motivo : String) :
    (resultado_error sku_id motivo).lookup "_IDSKU"
      = some (Valor.texto (toString sku_id)) := rfl

/-- Either branch of the per-identifier dispatch carries the identifier. -/
theorem lookup_idsku_filaDeSku (cp : List (String × Option DatosProd))
    (cc cm : List (String × DatosCategoria))
    (precios : Int → Option Rat) (stocks : Int → Option Int)
    (filtro : List Int) (incluir : Bool) (sid : Int) (det : Option DatosSku) :
    (filaDeSku cp cc cm precios stocks filtro incluir sid det).lookup "_IDSKU"
      = some (Valor.texto (toString sid)) := by
  cases det
  · exact lookup_idsku_resultado_error ..
  · exact lookup_idsku_construirFila ..

/-- C1: result assembly emits exactly one row per discovered identifier, in
discovery order: the output length equals the identifier-list length, row
`i` carries `sku_ids[i]` in its `_IDSKU` cell, and an identifier whose
detail fetch returned `None` yields the explicit error stub at its own
position rather than being dropped. -/
theorem c1_una_fila_por_identificador
    (sku_ids : List Int) (detalles : List (Option DatosSku))
    (cp : List (String × Option DatosProd)) (cc cm : List (String × DatosCategoria))
    (precios : Int → Option Rat) (stocks : Int → Option Int)
    (filtro : List Int) (incluir : Bool)
    (h : detalles.length = sku_ids.length) :
    (construir_resultados sku_ids detalles cp cc cm precios stocks filtro incluir).length
        = sku_ids.length ∧
    (∀ (i : Nat) (sid : Int) (fila : Fila), sku_ids[i]? = some sid →
        (construir_resultados sku_ids detalles cp cc cm precios stocks filtro incluir)[i]?
          = some fila →
        fila.lookup "_IDSKU" = some (Valor.texto (toString sid))) ∧
    (∀ (i : Nat) (sid : Int), sku_ids[i]? = some sid → detalles[i]? = some none →
        (construir_resultados sku_ids detalles cp cc cm precios stocks filtro incluir)[i]?
          = some (resultado_error sid "Error al consultar catalogo")) := by
  refine ⟨?_, ?_, ?_⟩
  · unfold construir_resultados
    rw [List.length_map, List.length_zip, h, min_self]
  · intro i sid fila h1 h2
    have hi : i < detalles.length := by
      rw [h]
      exact (List.getElem?_eq_some_iff.mp h1).1
    obtain ⟨det, hdet⟩ : ∃ det, detalles[i]? = some det :=
      ⟨detalles[i], (List.getElem?_eq_some_iff.mpr ⟨hi, rfl⟩)⟩
    have := construir_resultados_getElem sku_ids detalles cp cc cm precios stocks
      filtro incluir i sid det h1 hdet
    rw [this] at h2
    cases h2
    exact lookup_idsku_filaDeSku ..
  · intro i sid h1 h2
    exact construir_resultados_getElem sku_ids detalles cp cc cm precios stocks
      filtro incluir i sid none h1 h2

/-- Witness for C1 at a concrete two-identifier run with one failed fetch. -/
theorem c1_una_fila_por_identificador_witness :
    ([some {}, none] : List (Option DatosSku)).length = ([7, 8] : List Int).length ∧
    (construir_resultados [7, 8] [some {}, none] [] [] [] (fun _ => none) (fun _ => none)
        [1, 3] true).length = ([7, 8] : List Int).length ∧
    (construir_resultados [7, 8] [some {}, none] [] [] [] (fun _ => none) (fun _ => none)
        [1, 3] true)[1]? = some (resultado_error 8 "Error al consultar catalogo") :=
  ⟨rfl,
   (c1_una_fila_por_identificador [7, 8] [some {}, none] [] [] []
      (fun _ => none) (fun _ => none) [1, 3] true rfl).1,
   (c1_una_fila_por_identificador [7, 8] [some {}, none] [] [] []
      (fun _ => none) (fun _ => none) [1, 3] true rfl).2.2 1 8 rfl rfl⟩

/-- C5 counterexample: in the error stub the non-status column `_IDSKU`
holds the stringified identifier and `Motivo` holds the failure message, so
not every non-status column is empty as the claim states. -/
theorem c5_contraejemplo_columnas_no_vacias :
    (resultado_error 5 "Error al consultar catalogo").lookup "_IDSKU"
        = some (Valor.texto "5") ∧
    (resultado_error 5 "Error al consultar catalogo").lookup "Motivo"
        = some (Valor.texto "Error al consultar catalogo") ∧
    Valor.texto "5" ≠ Valor.texto "" := by decide

/-- C5 (amended): the stub row of a failed detail fetch has the three
status columns set to the `ERROR` sentinel, carries the identifier in
`_IDSKU`, the failure description in `Motivo` and null `Precio`/`Stock`,
every other export column is the empty string, and the stub occupies that
identifier's position in the assembled output. -/
theorem c5_stub_de_error
    (sku_id : Int) (motivo : String)
    (sku_ids : List Int) (detalles : List (Option DatosSku))
    (cp : List (String × Option DatosProd)) (cc cm : List (String × DatosCategoria))
    (precios : Int → Option Rat) (stocks : Int → Option Int)
    (filtro : List Int) (incluir : Bool) (i : Nat)
    (h1 : sku_ids[i]? = some sku_id) (h2 : detalles[i]? = some none) :
    (resultado_error sku_id motivo).lookup "ACTIVO" = some (Valor.texto "ERROR") ∧
    (resultado_error sku_id motivo).lookup "FOTO" = some (Valor.texto "ERROR") ∧
    (resultado_error sku_id motivo).lookup "CATALOGADO" = some (Valor.texto "ERROR") ∧
    (resultado_error sku_id motivo).lookup "_IDSKU" = some (Valor.texto (toString sku_id)) ∧
    (resultado_error sku_id motivo).lookup "Motivo" = some (Valor.texto motivo) ∧
    (resultado_error sku_id motivo).lookup "Precio" = some Valor.nulo ∧
    (resultado_error sku_id motivo).lookup "Stock" = some Valor.nulo ∧
    (∀ col ∈ COLUMNAS_EXPORT,
        col ∉ ["ACTIVO", "FOTO", "CATALOGADO", "_IDSKU", "Motivo", "Precio", "Stock"] →
        (resultado_error sku_id motivo).lookup col = some (Valor.texto "")) ∧
    (construir_resultados sku_ids detalles cp cc cm precios stocks filtro incluir)[i]?
        = some (resultado_error sku_id "Error al consultar catalogo") := by
  refine ⟨rfl, rfl, rfl, rfl, rfl, rfl, rfl, ?_, ?_⟩
  · intro col hmem hne
    fin_cases hmem <;> first | rfl | simp at hne
  · exact construir_resultados_getElem sku_ids detalles cp cc cm precios stocks
      filtro incluir i sku_id none h1 h2

/-- Witness for C5 at a concrete one-identifier run with a failed fetch. -/
theorem c5_stub_de_error_witness :
    ([9] : List Int)[0]? = some 9 ∧
    ([none] : List (Option DatosSku))[0]? = some (none : Option DatosSku) ∧
    (resultado_error 9 "falla").lookup "ACTIVO" = some (Valor.texto "ERROR") ∧
    (construir_resultados [9] [none] [] [] [] (fun _ => none) (fun _ => none) [1, 3] true)[0]?
        = some (resultado_error 9 "Error al consultar catalogo") :=
  ⟨rfl, rfl,
   (c5_stub_de_error 9 "falla" [9] [none] [] [] [] (fun _ => none) (fun _ => none)
      [1, 3] true 0 rfl rfl).1,
   (c5_stub_de_error 9 "falla" [9] [none] [] [] [] (fun _ => none) (fun _ => none)
      [1, 3] true 0 rfl rfl).2.2.2.2.2.2.2.2⟩

/-- C4 counterexample: a network failure on the first attempt makes
`_request_con_retry` return `None` immediately (one request, no sleeps),
even though a retry would have succeeded — so network failures are not
retried up to the maximum as the claim states. -/
theorem c4_contraejemplo_error_red :
    request_con_retry (fun n => if n = 1 then Respuesta.errorRed else Respuesta.ok 0) false
      = { resultado := (none : Option Nat), esperas := [], intentos := 1 } ∧
    (fun n => if n = 1 then Respuesta.errorRed else Respuesta.ok 0) 2
      = (Respuesta.ok 0 : Respuesta Nat) := by
  decide

/-- C4 (amended): a non-404 HTTP error status is retried up to the fixed
maximum of 3 attempts with linearly increasing backoff before returning
`None`; a network failure (non-HTTP exception) makes the call return `None`
immediately after its first occurrence, with no retry. -/
theorem c4_reintentos_enmendado (α : Type) (respuestas : Nat → Respuesta α)
    (silenciar_404 : Bool) :
    ((∀ i, 1 ≤ i → i ≤ REINTENTOS_MAXIMOS → respuestas i = Respuesta.errorHttp) →
      request_con_retry respuestas silenciar_404
        = { resultado := none,
            esperas := [ESPERA_ENTRE_REINTENTOS * 1, ESPERA_ENTRE_REINTENTOS * 2],
            intentos := REINTENTOS_MAXIMOS }) ∧
    (respuestas 1 = Respuesta.errorRed →
      request_con_retry respuestas silenciar_404
        = { resultado := none, esperas := [], intentos := 1 }) := by
  constructor
  · intro h
    have h1 := h 1 (by decide) (by decide)
    have h2 := h 2 (by decide) (by decide)
    have h3 := h 3 (by decide) (by decide)
    simp [request_con_retry, REINTENTOS_MAXIMOS, request_con_retry_buc, h1, h2, h3,
      ESPERA_ENTRE_REINTENTOS]
  · intro h
    simp [request_con_retry, REINTENTOS_MAXIMOS, request_con_retry_buc, h]

/-- Witness for C4 at concrete response traces. -/
theorem c4_reintentos_enmendado_witness :
    request_con_retry (fun _ => (Respuesta.errorHttp : Respuesta Nat)) false
      = { resultado := none, esperas := [2, 4], intentos := 3 } ∧
    request_con_retry (fun n => if n = 1 then (Respuesta.errorRed : Respuesta Nat)
        else Respuesta.ok 7) false
      = { resultado := none, esperas := [], intentos := 1 } :=
  ⟨(c4_reintentos_enmendado Nat (fun _ => Respuesta.errorHttp) false).1 (fun _ _ _ => rfl),
   (c4_reintentos_enmendado Nat (fun n => if n = 1 then Respuesta.errorRed
      else Respuesta.ok 7) false).2 rfl⟩

set_option maxRecDepth 40000 in
/-- C6: pagination starts at page 1 and stops exactly when a page returns
fewer items than the page size: the [200, 200, 47] sequence requests pages
1, 2, 3 and returns 447 identifiers; the [200, 200, 200, 0] sequence
requests pages 1, 2, 3, 4 and returns 600 identifiers. -/
theorem c6_terminacion_paginacion :
    (obtener_todos_los_sku_ids paginas447 10).map
        (fun s => (s.ids.length, s.paginasPedidas, s.errorPagina))
      = some (447, [1, 2, 3], false) ∧
    (obtener_todos_los_sku_ids paginas600 10).map
        (fun s => (s.ids.length, s.paginasPedidas, s.errorPagina))
      = some (600, [1, 2, 3, 4], false) := by
  constructor
  · rfl
  · rfl

/-- C8 counterexample: in the export pipeline `_obtener_stock` ignores the
unlimited-quantity sentinel — a lone unlimited warehouse with zero
quantities aggregates to stock 0 and `_calcular_activo` still marks the
item `Sin stock`, so the sentinel does not short-circuit every stock
lookup in the pipeline to available. -/
theorem c8_contraejemplo_export_ignora_ilimitado :
    obtener_stock (some { balance := some [almacenIlimitado] }) = some 0 ∧
    "Sin stock" ∈ (calcular_activo_motivos skuConFoto (some prodVisible) true
        (calcular_calidad skuConFoto (pyStr prodVisible.Description)) [1, 3] (some 100)
        (obtener_stock (some { balance := some [almacenIlimitado] })) true).2 := by
  decide

/-- C8 (amended): every aggregated stock quantity is absent or a
non-negative sum over warehouses; the unlimited-quantity sentinel
short-circuits the availability decision to available only in the
visibility-check variant (`tiene_stock`, and hence no `Sin stock` reason),
while the export pipeline judges stock purely by the aggregated sum. -/
theorem c8_stock_enmendado :
    (∀ (respuesta : Option DatosStock) (n : Int), obtener_stock respuesta = some n → 0 ≤ n) ∧
    (∀ (balance : List Almacen) (a : Almacen), a ∈ balance →
        a.hasUnlimitedQuantity = some true → tiene_stock balance = true) ∧
    (∀ (skuId : String) (cat : DatosCatalogoVis) (bp : Option Rat) (balance : List Almacen)
        (a : Almacen), a ∈ balance → a.hasUnlimitedQuantity = some true →
        (consultar_visibilidad_sku skuId
            { catalogo := some cat, precio := some bp, stock := some balance }).motivo
          ≠ "Sin stock") := by
  have hts : ∀ (balance : List Almacen) (a : Almacen), a ∈ balance →
      a.hasUnlimitedQuantity = some true → tiene_stock balance = true := by
    intro balance a ha hu
    unfold tiene_stock
    rw [List.any_eq_true]
    exact ⟨a, ha, by rw [hu]; simp⟩
  refine ⟨?_, hts, ?_⟩
  · intro resp n h
    cases resp with
    | none => simp [obtener_stock] at h
    | some d =>
      simp [obtener_stock] at h
      subst h
      unfold sumaStock
      induction d.balance.getD [] with
      | nil => simp
      | cons x xs ih =>
        simp only [List.map_cons, List.sum_cons]
        have : 0 ≤ cantidadAlmacen x := le_max_right _ _
        omega
  · intro skuId cat bp balance a ha hu
    have h := hts balance a ha hu
    unfold consultar_visibilidad_sku
    simp only [h]
    split_ifs <;> simp_all

/-- Witness for C8 at the unlimited warehouse and a passing catalog. -/
theorem c8_stock_enmendado_witness :
    obtener_stock (some { balance := some [almacenIlimitado] }) = some 0 ∧
    (0 : Int) ≤ 0 ∧
    almacenIlimitado ∈ [almacenIlimitado] ∧
    almacenIlimitado.hasUnlimitedQuantity = some true ∧
    tiene_stock [almacenIlimitado] = true ∧
    (consultar_visibilidad_sku "1"
        { catalogo := some catalogoOk, precio := some (some 10),
          stock := some [almacenIlimitado] }).motivo ≠ "Sin stock" :=
  ⟨by decide,
   c8_stock_enmendado.1 (some { balance := some [almacenIlimitado] }) 0 (by decide),
   by decide, by decide,
   c8_stock_enmendado.2.1 [almacenIlimitado] almacenIlimitado (by decide) rfl,
   c8_stock_enmendado.2.2 "1" catalogoOk (some 10) [almacenIlimitado] almacenIlimitado
     (by decide) rfl⟩

/-- C9 counterexample: when the catalog fetch itself fails, the visibility
check returns early with the failure row and persists zero audit records,
not the one-per-identifier record the claim requires. -/
theorem c9_contraejemplo_fallo_catalogo_sin_auditoria :
    consultar_visibilidad_sku "123" { catalogo := none, precio := none, stock := none }
      = { sku_id := "123", visible := false, motivo := "Error al consultar catalogo",
          stock := none, precio := none, tiene_imagenes := none, registrosAuditoria := 0 } ∧
    (0 : Nat) ≠ 1 := by
  decide

/-- C9 (amended): exactly one audit record is persisted per identifier
whose catalog fetch succeeds; an identifier whose catalog fetch fails
returns the failure row before the persistence call and creates no audit
record. -/
theorem c9_auditoria_enmendado (skuId : String) (r : RespuestasVisibilidad) :
    (∀ d : DatosCatalogoVis, r.catalogo = some d →
        (consultar_visibilidad_sku skuId r).registrosAuditoria = 1) ∧
    (r.catalogo = none →
        (consultar_visibilidad_sku skuId r).registrosAuditoria = 0) := by
  constructor
  · intro d h
    unfold consultar_visibilidad_sku
    rw [h]
  · intro h
    unfold consultar_visibilidad_sku
    rw [h]

/-- Witness for C9 at one successful and one failed catalog fetch. -/
theorem c9_auditoria_enmendado_witness :
    (consultar_visibilidad_sku "9"
        { catalogo := some catalogoOk, precio := some (some 10),
          stock := some [almacenIlimitado] }).registrosAuditoria = 1 ∧
    (consultar_visibilidad_sku "9"
        { catalogo := none, precio := none, stock := none }).registrosAuditoria = 0 :=
  ⟨(c9_auditoria_enmendado "9"
      { catalogo := some catalogoOk, precio := some (some 10),
        stock := some [almacenIlimitado] }).1 catalogoOk rfl,
   (c9_auditoria_enmendado "9" { catalogo := none, precio := none, stock := none }).2 rfl⟩

/-- Looking up the key just prepended. -/
theorem lookup_cons_self {β : Type} (k : String) (b : β) (es : List (String × β)) :
    List.lookup k ((k, b) :: es) = some b := by
  simp [List.lookup]

/-- Looking up a different key skips the prepended entry. -/
theorem lookup_cons_ne {β : Type} (k a : String) (h : k ≠ a) (b : β)
    (es : List (String × β)) :
    List.lookup a ((k, b) :: es) = es.lookup a := by
  have hb : (a == k) = false := beq_eq_false_iff_ne.mpr (fun hh => h hh.symm)
  simp [List.lookup, hb]

theorem inv_obtener_producto (fetch : String → Option DatosProd) (c : CacheProductos)
    (pid : String) (h : invCacheProductos fetch c) :
    invCacheProductos fetch (obtener_producto fetch c pid).2 := by
  obtain ⟨hnd, hiff, hval⟩ := h
  unfold obtener_producto
  cases hl : c.entradas.lookup pid with
  | some d => exact ⟨hnd, hiff, hval⟩
  | none =>
    refine ⟨?_, ?_, ?_⟩
    · refine List.nodup_cons.mpr ⟨?_, hnd⟩
      intro hmem
      have := (hiff pid).mp hmem
      rw [hl] at this
      simp at this
    · intro k
      by_cases hk : pid = k
      · subst hk
        constructor
        · intro _
          rw [lookup_cons_self]
          simp
        · intro _
          exact List.mem_cons_self _ _
      · constructor
        · intro hmem
          rcases List.mem_cons.mp hmem with h1 | h1
          · exact absurd h1.symm hk
          · rw [lookup_cons_ne pid k hk]
            exact (hiff k).mp h1
        · intro hsome
          rw [lookup_cons_ne pid k hk] at hsome
          exact List.mem_cons_of_mem _ ((hiff k).mpr hsome)
    · intro k v hkv
      by_cases hk : pid = k
      · subst hk
        rw [lookup_cons_self] at hkv
        cases hkv
        rfl
      · rw [lookup_cons_ne pid k hk] at hkv
        exact hval k v hkv

theorem inv_secuencia_productos_aux (fetch : String → Option DatosProd)
    (claves : List String) (c : CacheProductos) (h : invCacheProductos fetch c) :
    invCacheProductos fetch
      (claves.foldl (fun c k => (obtener_producto fetch c k).2) c) := by
  induction claves generalizing c with
  | nil => exact h
  | cons k ks ih => exact ih _ (inv_obtener_producto fetch c k h)

theorem inv_secuencia_productos (fetch : String → Option DatosProd) (claves : List String) :
    invCacheProductos fetch (secuenciaProductos fetch claves) := by
  apply inv_secuencia_productos_aux
  refine ⟨List.nodup_nil, ?_, ?_⟩
  · intro k
    simp [List.lookup]
  · intro k v h
    simp [List.lookup] at h

/-- A call on key `pid` leaves the cache holding `pid`. -/
theorem lookup_isSome_obtener_producto (fetch : String → Option DatosProd)
    (c : CacheProductos) (pid : String) :
    (((obtener_producto fetch c pid).2).entradas.lookup pid).isSome := by
  unfold obtener_producto
  cases hl : c.entradas.lookup pid with
  | some d => simp [hl]
  | none => simp [lookup_cons_self]

/-- A call on any key preserves every present cache entry. -/
theorem lookup_mono_obtener_producto (fetch : String → Option DatosProd)
    (c : CacheProductos) (k pid : String)
    (h : (c.entradas.lookup k).isSome) :
    (((obtener_producto fetch c pid).2).entradas.lookup k).isSome := by
  unfold obtener_producto
  cases hl : c.entradas.lookup pid with
  | some d => simpa using h
  | none =>
    by_cases hk : pid = k
    · subst hk
      rw [hl] at h
      simp at h
    · simpa [lookup_cons_ne pid k hk] using h

theorem secuencia_productos_mem_aux (fetch : String → Option DatosProd)
    (claves : List String) (c : CacheProductos) (k : String)
    (h : k ∈ claves ∨ (c.entradas.lookup k).isSome) :
    (((claves.foldl (fun c k => (obtener_producto fetch c k).2) c)).entradas.lookup k).isSome := by
  induction claves generalizing c with
  | nil =>
    rcases h with h | h
    · simp at h
    · exact h
  | cons k0 ks ih =>
    apply ih
    rcases h with h | h
    · rcases List.mem_cons.mp h with h1 | h1
      · subst h1
        right
        exact lookup_isSome_obtener_producto fetch c k
      · left
        exact h1
    · right
      exact lookup_mono_obtener_producto fetch c k k0 h

/-- C7: over any contention-free call sequence on the product memo cache,
the underlying fetch runs at most once per distinct key, every call —
including later repeats — returns the stable value `fetch k`, and a fetch
that returned absent is cached as an explicit present-`none` entry
(distinct from a never-attempted missing key), so it is not refetched. -/
theorem c7_cache_productos (fetch : String → Option DatosProd)
    (claves : List String) (k : String) :
    ((secuenciaProductos fetch claves).llamadas.count k ≤ 1) ∧
    (∀ v, (secuenciaProductos fetch claves).entradas.lookup k = some v → v = fetch k) ∧
    ((obtener_producto fetch (secuenciaProductos fetch claves) k).1 = fetch k) ∧
    (k ∈ claves → ((secuenciaProductos fetch claves).entradas.lookup k).isSome) ∧
    (k ∈ claves → fetch k = none →
        (secuenciaProductos fetch claves).entradas.lookup k = some none) ∧
    (k ∈ claves →
        (obtener_producto fetch (secuenciaProductos fetch claves) k).2.llamadas
          = (secuenciaProductos fetch claves).llamadas) := by
  obtain ⟨hnd, hiff, hval⟩ := inv_secuencia_productos fetch claves
  have hmem : k ∈ claves → ((secuenciaProductos fetch claves).entradas.lookup k).isSome := by
    intro hk
    exact secuencia_productos_mem_aux fetch claves _ k (Or.inl hk)
  refine ⟨List.nodup_iff_count_le_one.mp hnd k, hval k, ?_, hmem, ?_, ?_⟩
  · unfold obtener_producto
    cases hl : (secuenciaProductos fetch claves).entradas.lookup k with
    | some d =>
      simp only []
      exact hval k d hl
    | none => rfl
  · intro hk hnone
    obtain ⟨v, hv⟩ := Option.isSome_iff_exists.mp (hmem hk)
    rw [hv, hval k v hv, hnone]
  · intro hk
    obtain ⟨v, hv⟩ := Option.isSome_iff_exists.mp (hmem hk)
    unfold obtener_producto
    rw [hv]

/-- Witness for C7: duplicate requests for one absent key fetch once. -/
theorem c7_cache_productos_witness :
    ((secuenciaProductos (fun _ => none) ["5", "5", "5"]).llamadas.count "5" ≤ 1) ∧
    (secuenciaProductos (fun _ => none) ["5", "5", "5"]).entradas.lookup "5" = some none ∧
    (obtener_producto (fun _ => none) (secuenciaProductos (fun _ => none) ["5", "5", "5"])
        "5").2.llamadas
      = (secuenciaProductos (fun _ => none) ["5", "5", "5"]).llamadas :=
  ⟨(c7_cache_productos (fun _ => none) ["5", "5", "5"] "5").1,
   (c7_cache_productos (fun _ => none) ["5", "5", "5"] "5").2.2.2.2.1 (by decide) rfl,
   (c7_cache_productos (fun _ => none) ["5", "5", "5"] "5").2.2.2.2.2 (by decide)⟩

theorem inv_obtener_categoria (fetch : String → Option DatosCategoria) (c : CacheCategorias)
    (cid : String) (h : invCacheCategorias fetch c) :
    invCacheCategorias fetch (obtener_categoria fetch c cid).2 := by
  obtain ⟨hnd, hiff, hval⟩ := h
  unfold obtener_categoria
  cases hl : c.entradas.lookup cid with
  | some d => exact ⟨hnd, hiff, hval⟩
  | none =>
    refine ⟨?_, ?_, ?_⟩
    · refine List.nodup_cons.mpr ⟨?_, hnd⟩
      intro hmem
      have := (hiff cid).mp hmem
      rw [hl] at this
      simp at this
    · intro k
      by_cases hk : cid = k
      · subst hk
        constructor
        · intro _
          rw [lookup_cons_self]
          simp
        · intro _
          exact List.mem_cons_self _ _
      · constructor
        · intro hmem
          rcases List.mem_cons.mp hmem with h1 | h1
          · exact absurd h1.symm hk
          · rw [lookup_cons_ne cid k hk]
            exact (hiff k).mp h1
        · intro hsome
          rw [lookup_cons_ne cid k hk] at hsome
          exact List.mem_cons_of_mem _ ((hiff k).mpr hsome)
    · intro k v hkv
      by_cases hk : cid = k
      · subst hk
        rw [lookup_cons_self] at hkv
        cases hkv
        rfl
      · rw [lookup_cons_ne cid k hk] at hkv
        exact hval k v hkv

theorem inv_secuencia_categorias (fetch : String → Option DatosCategoria)
    (claves : List String) :
    invCacheCategorias fetch (secuenciaCategorias fetch claves) := by
  have aux : ∀ (cl : List String) (c : CacheCategorias), invCacheCategorias fetch c →
      invCacheCategorias fetch
        (cl.foldl (fun c k => (obtener_categoria fetch c k).2) c) := by
    intro cl
    induction cl with
    | nil => intro c h; exact h
    | cons k ks ih => intro c h; exact ih _ (inv_obtener_categoria fetch c k h)
  apply aux
  refine ⟨List.nodup_nil, ?_, ?_⟩
  · intro k
    simp [List.lookup]
  · intro k v h
    simp [List.lookup] at h

theorem lookup_isSome_obtener_categoria (fetch : String → Option DatosCategoria)
    (c : CacheCategorias) (cid : String) :
    (((obtener_categoria fetch c cid).2).entradas.lookup cid).isSome := by
  unfold obtener_categoria
  cases hl : c.entradas.lookup cid with
  | some d => simp [hl]
  | none => simp [lookup_cons_self]

theorem lookup_mono_obtener_categoria (fetch : String → Option DatosCategoria)
    (c : CacheCategorias) (k cid : String)
    (h : (c.entradas.lookup k).isSome) :
    (((obtener_categoria fetch c cid).2).entradas.lookup k).isSome := by
  unfold obtener_categoria
  cases hl : c.entradas.lookup cid with
  | some d => simpa using h
  | none =>
    by_cases hk : cid = k
    · subst hk
      rw [hl] at h
      simp at h
    · simpa [lookup_cons_ne cid k hk] using h

theorem secuencia_categorias_mem_aux (fetch : String → Option DatosCategoria)
    (claves : List String) (c : CacheCategorias) (k : String)
    (h : k ∈ claves ∨ (c.entradas.lookup k).isSome) :
    (((claves.foldl (fun c k => (obtener_categoria fetch c k).2) c)).entradas.lookup k).isSome := by
  induction claves generalizing c with
  | nil =>
    rcases h with h | h
    · simp at h
    · exact h
  | cons k0 ks ih =>
    apply ih
    rcases h with h | h
    · rcases List.mem_cons.mp h with h1 | h1
      · subst h1
        right
        exact lookup_isSome_obtener_categoria fetch c k
      · left
        exact h1
    · right
      exact lookup_mono_obtener_categoria fetch c k k0 h

/-- C10: after any call sequence touching a key, the category/brand cache
maps that key to a concrete dict — a failed or absent fetch is
negative-cached as the `{'Name': '', 'Id': id}` stub — so within a run the
key is fetched at most once, repeated lookups return the cached record
without refetching, downstream name resolution of a stubbed key yields the
empty string, and `_obtener_marca` behaves identically on the brand cache. -/
theorem c10_cache_negativo_categorias (fetch : String → Option DatosCategoria)
    (claves : List String) (k : String) :
    ((secuenciaCategorias fetch claves).llamadas.count k ≤ 1) ∧
    (k ∈ claves → (secuenciaCategorias fetch claves).entradas.lookup k
        = some (valorCacheCategoria fetch k)) ∧
    (k ∈ claves → fetch k = none →
        (secuenciaCategorias fetch claves).entradas.lookup k = some (stubCategoria k) ∧
        nombreDeCache (secuenciaCategorias fetch claves).entradas k = "") ∧
    (k ∈ claves →
        (obtener_categoria fetch (secuenciaCategorias fetch claves) k).1
            = valorCacheCategoria fetch k ∧
        (obtener_categoria fetch (secuenciaCategorias fetch claves) k).2.llamadas
          = (secuenciaCategorias fetch claves).llamadas) ∧
    (∀ (c : CacheCategorias) (id : String),
        obtener_marca fetch c id = obtener_categoria fetch c id) := by
  obtain ⟨hnd, hiff, hval⟩ := inv_secuencia_categorias fetch claves
  have hmem : k ∈ claves →
      ((secuenciaCategorias fetch claves).entradas.lookup k).isSome := by
    intro hk
    exact secuencia_categorias_mem_aux fetch claves _ k (Or.inl hk)
  have hlook : k ∈ claves →
      (secuenciaCategorias fetch claves).entradas.lookup k
        = some (valorCacheCategoria fetch k) := by
    intro hk
    obtain ⟨v, hv⟩ := Option.isSome_iff_exists.mp (hmem hk)
    rw [hv, hval k v hv]
  refine ⟨List.nodup_iff_count_le_one.mp hnd k, hlook, ?_, ?_, ?_⟩
  · intro hk hnone
    have h1 := hlook hk
    rw [h1]
    unfold valorCacheCategoria at h1 ⊢
    rw [hnone] at h1 ⊢
    constructor
    · rfl
    · unfold nombreDeCache
      rw [h1]
      rfl
  · intro hk
    have h1 := hlook hk
    unfold obtener_categoria
    rw [h1]
    exact ⟨rfl, rfl⟩
  · intro c id
    rfl

/-- Witness for C10: a key whose fetch fails, requested twice. -/
theorem c10_cache_negativo_categorias_witness :
    ((secuenciaCategorias (fun _ => none) ["8", "8"]).llamadas.count "8" ≤ 1) ∧
    (secuenciaCategorias (fun _ => none) ["8", "8"]).entradas.lookup "8"
        = some (stubCategoria "8") ∧
    nombreDeCache (secuenciaCategorias (fun _ => none) ["8", "8"]).entradas "8" = "" ∧
    (obtener_categoria (fun _ => none) (secuenciaCategorias (fun _ => none) ["8", "8"])
        "8").2.llamadas
      = (secuenciaCategorias (fun _ => none) ["8", "8"]).llamadas :=
  ⟨(c10_cache_negativo_categorias (fun _ => none) ["8", "8"] "8").1,
   ((c10_cache_negativo_categorias (fun _ => none) ["8", "8"] "8").2.2.1 (by decide) rfl).1,
   ((c10_cache_negativo_categorias (fun _ => none) ["8", "8"] "8").2.2.1 (by decide) rfl).2,
   ((c10_cache_negativo_categorias (fun _ => none) ["8", "8"] "8").2.2.2.1 (by decide)).2⟩

/-- When a page request fails, `_obtener_todos_los_sku_ids` discards the
accumulated identifiers and returns the empty list. -/
theorem buc_error_ids_vacios (paginas : Nat → Option (List Int)) :
    ∀ (fuel page : Nat) (acc : List Int) (pedidas : List Nat) (s : SalidaDescubrimiento),
      obtener_sku_ids_buc paginas fuel page acc pedidas = some s →
      s.errorPagina = true → s.ids = [] := by
  intro fuel
  induction fuel with
  | zero =>
    intro page acc pedidas s h herr
    simp [obtener_sku_ids_buc] at h
  | succ n ih =>
    intro page acc pedidas s h herr
    unfold obtener_sku_ids_buc at h
    split at h
    · cases h
      rfl
    · split at h
      · cases h
        simp at herr
      · dsimp only at h
        split at h
        · cases h
          simp at herr
        · exact ih _ _ _ _ h herr

/-- C2 (code behavior at the failing input): for every run whose discovery
reports a page failure, the pipeline aborts before any phase and produces
no output rows, and the task's state trace is PROCESANDO, ERROR,
COMPLETADO — the empty-identifier path overwrites the ERROR set during
discovery, so the final state is COMPLETADO, not ERROR as the claim
states. -/
theorem c2_fallo_descubrimiento (o : Oraculos) (filtro : Option (List Int))
    (incluir : Bool) (fuel : Nat) (s : SalidaDescubrimiento)
    (h : obtener_todos_los_sku_ids o.paginas fuel = some s)
    (herr : s.errorPagina = true) :
    s.ids = [] ∧
    ejecutar o filtro incluir fuel
      = some { estadoFinal := Estado.completado,
               historialEstados := [Estado.procesando, Estado.error, Estado.completado],
               filas := none } := by
  have hids : s.ids = [] := buc_error_ids_vacios o.paginas fuel 1 [] [] s h herr
  constructor
  · exact hids
  · unfold ejecutar
    rw [h]
    simp [hids, herr]

/-- Witness for C2: the concrete run whose first page request fails. -/
theorem c2_fallo_descubrimiento_witness :
    obtener_todos_los_sku_ids oraculosFalloPagina.paginas 10
        = some { ids := [], paginasPedidas := [1], errorPagina := true } ∧
    ejecutar oraculosFalloPagina none true 10
      = some { estadoFinal := Estado.completado,
               historialEstados := [Estado.procesando, Estado.error, Estado.completado],
               filas := none } :=
  ⟨rfl,
   (c2_fallo_descubrimiento oraculosFalloPagina none true 10
      { ids := [], paginasPedidas := [1], errorPagina := true } rfl rfl).2⟩
